import Mathlib

/-!
Verification of the sploitkit `Config`/`Option` configuration store
(`src/sploitkit/core/components/config.py`).

The Python classes are shallowly embedded as follows.  Python values that can
be stored in a `Config` are modelled by `RawValue` (`None`, `str`, `int`,
`bool`).  Object identity is modelled by a heap: `State` carries the list of
all allocated `Option` objects (indexed by `Nat` ids standing for `id(obj)`),
the list of `Config` objects, the list of console objects (external
collaborators), and the process-wide registry `Option._instances`.  Fallible
operations return `Except Err` / pair the new state with an optional raised
error; Python exceptions are the constructors of `Err`.  Unbounded recursion
(parent-chain delegation in `Config.__getitem__`) takes an explicit fuel
argument; running out of fuel models Python's `RecursionError`.

Hook functions (`transform` / `validate` / `callback`) are modelled by the
`Func` structure which records, besides the behaviour, whether the stored
object is a plain function or a bound method and whether its `__name__` is
`<lambda>` — `Option.__set_func` re-binds every accepted hook with
`func.__get__(self, self.__class__)`, turning it into a bound method, and
`Option.value` / `Option.copy` test `isinstance(hook, type(lambda: 0))`
afterwards, so this distinction is observable in the source.

The filesystem path utility (`sploitkit.utils.path.Path`, outside the
analysed slice and declared an external collaborator by the spec) is a
function-valued field `pathExpand` of the state.
-/

abbrev Opt (α : Type) : Type := Option α

namespace Sploitkit

/-- Values storable in a `Config`: Python `None`, `str`, `int`, `bool`. -/
inductive RawValue : Type
  | null
  | str (s : String)
  | int (n : Int)
  | bool (b : Bool)
deriving DecidableEq

/-- Python `str()` of a stored value. -/
def pyStr : RawValue → String
  | .null => "None"
  | .str s => s
  | .int n => toString n
  | .bool b => if b then "True" else "False"

/-- Exceptions raised by the analysed code, by the names the spec gives them. -/
inductive Err : Type
  | keyNotFound (key : String)            -- `KeyError(key)`
  | invalidValue (name : String)          -- `ValueError("Invalid value")`
  | requiredValueMissing (name : String)  -- `ValueError("... must be defined")`
  | invalidHook (fname : String)          -- `Exception("Bad ... lambda")`
  | unboundOption (name : String)         -- `Exception("Unbound option ...")`
  | attributeError                        -- `AttributeError` escaping an operation
  | recursionError                        -- Python recursion limit
deriving DecidableEq

/-- Observable side effects of `Config.__setitem__`, in order of occurrence. -/
inductive Event : Type
  | stored (name : String)
  | callbackOk
  | callbackErr (msg : String)
  | resetCalled (console : Nat)
deriving DecidableEq

/-- Python `str.lower` (ASCII model, matching the values the store handles). -/
def pyLower (s : String) : String := String.mk (s.data.map Char.toLower)

/-- Python `str.endswith`. -/
def strEndsWith (s suf : String) : Bool := suf.data.isSuffixOf s.data

/-- Lower-case ASCII letter test, the `[a-z]` class of the template regex. -/
def isLowerAscii (c : Char) : Bool := 'a' ≤ c && c ≤ 'z'

/-- Python `str.isdigit` restricted to ASCII: nonempty and all digits. -/
def isDigits (s : String) : Bool := !s.data.isEmpty && s.data.all Char.isDigit

/-- Numeric value of a digit string, Python `int(s)`. -/
def digitsToNat (s : String) : Nat :=
  s.data.foldl (fun a c => a * 10 + (c.toNat - 48)) 0

/-- Does the char list start with a `\x7b[a-z]+\x7d` match?  Mirrors one
position of the `re.findall` scan in `Option.value`. -/
def startsLowerField (cs : List Char) : Bool :=
  match cs with
  | '{' :: rest =>
    decide (rest.takeWhile isLowerAscii ≠ []) &&
      ((rest.dropWhile isLowerAscii).head? == some '}')
  | _ => false

/-- Does `re.findall` of the template pattern find at least one identifier? -/
def hasLowerField : List Char → Bool
  | [] => false
  | c :: rest => startsLowerField (c :: rest) || hasLowerField rest

/-- Core of Python `str.format(**kw)` as used by the template-expansion stage:
doubled braces are literals, a field must be a nonempty lower-case ASCII
identifier known to `kw`, anything else makes the whole call raise (`none`).
The first argument is `some acc` while scanning a field body. -/
def pfAux (kw : String → Opt String) : Opt (List Char) → List Char → Opt (List Char)
  | none, [] => some []
  | none, '{' :: '{' :: rest => (pfAux kw none rest).map (fun t => '{' :: t)
  | none, '{' :: rest => pfAux kw (some []) rest
  | none, '}' :: '}' :: rest => (pfAux kw none rest).map (fun t => '}' :: t)
  | none, '}' :: _ => none
  | none, c :: rest => (pfAux kw none rest).map (fun t => c :: t)
  | some _, [] => none
  | some acc, '}' :: rest =>
    if acc ≠ [] ∧ acc.all isLowerAscii then
      match kw (String.mk acc) with
      | some rep => (pfAux kw none rest).map (fun t => rep.data ++ t)
      | none => none
    else none
  | some acc, c :: rest => pfAux kw (some (acc ++ [c])) rest

/-- Python `s.format(**kw)`; `none` models the call raising. -/
def pyFormat (kw : String → Opt String) (s : String) : Opt String :=
  (pfAux kw none s.data).map (fun l => String.mk l)

/-- Template-expansion stage of `Option.value`.  `console` is
`self.config.console.__dict__` when that attribute chain exists.  A found
identifier with an absent console raises `AttributeError` inside the loop and
the stage is skipped; a failing `format` call is swallowed likewise.
Non-string values are unchanged (`value.format` raises `AttributeError`). -/
def templateExpand (console : Opt (String → Opt String)) (v : RawValue) : RawValue :=
  match v with
  | .str s =>
    if hasLowerField s.data ∧ console.isNone then v
    else
      let attrs := console.getD (fun _ => none)
      match pyFormat (fun f => some ((attrs f).getD "")) s with
      | some s2 => .str s2
      | none => v
  | w => w

/-- Primitive-coercion stage of `Option.value`, as the source executes it:
`value.isdigit()` first (converting to `int`), then the `true`/`false` test,
which is reached only if the value is still a string (otherwise `.lower`
raises `AttributeError`, swallowed by the surrounding handler). -/
def coerce (v : RawValue) : RawValue :=
  match v with
  | .str s =>
    let v1 : RawValue := if isDigits s then .int (digitsToNat s) else .str s
    match v1 with
    | .str s1 =>
      if pyLower s1 = "true" then .bool true
      else if pyLower s1 = "false" then .bool false
      else .str s1
    | w => w
  | w => w

/-- Primitive coercion transcribed from the spec's words (section 4.3 stage 4):
a digit-only string becomes an integer, a string whose lower-cased form is
exactly true/false becomes a boolean, non-strings pass through unchanged. -/
def coerceSpec (v : RawValue) : RawValue :=
  match v with
  | .str s =>
    if isDigits s then .int (digitsToNat s)
    else if pyLower s = "true" then .bool true
    else if pyLower s = "false" then .bool false
    else .str s
  | w => w

theorem coerce_eq_coerceSpec : coerce = coerceSpec := by
  funext v
  cases v with
  | str s =>
    by_cases h : isDigits s = true <;> simp [coerce, coerceSpec, h]
  | null => rfl
  | int n => rfl
  | bool b => rfl

/-- Kind of a Python callable: a plain function (`types.FunctionType`, what
`type(lambda: 0)` denotes) or a bound method produced by `__get__`. -/
inductive FuncKind : Type
  | function
  | method
deriving DecidableEq

/-- A hook held by an `Option`: its callable kind, whether its `__name__` is
`<lambda>`, and its behaviour.  `Option.__set_func` accepts only plain
functions and stores them re-bound as methods. -/
structure Func (α : Type) : Type where
  kind : FuncKind
  isLambda : Bool
  payload : α

/-- Behaviour of a `validate` hook: the default always-truthy lambda
(`lambda *a, **kw: a[-1] ...` returns `self`), the default choice-membership
check installed when `choices` is given, or a user lambda examining the
option's resolved value. -/
inductive ValidateFn : Type
  | dflt
  | choiceCheck
  | user (f : RawValue → Bool)

/-- The `choices` constructor argument: absent, the `bool` type sentinel, or
an explicit list. -/
inductive ChoicesArg : Type
  | noChoices
  | boolType
  | list (cs : List RawValue)

/-- Embedding of `class Option`.  `config` is the scope link set by `bind`
(`hasattr(self, "config")`), `oldValue` is `old_value` (class default `None`),
`_reset` the reset flag.  A callback's behaviour is the message it raises on
the assigned value, if any. -/
structure Option : Type where
  name : String
  description : Opt String
  required : Bool
  choices : Opt (List RawValue)
  transform : Func (RawValue → RawValue)
  validate : Func ValidateFn
  callback : Func (RawValue → Opt String)
  oldValue : RawValue
  _reset : Bool
  config : Opt Nat

/-- Embedding of `class Config`: the private ordered map `__d` from names to
`(Option, raw value)` pairs (options by heap id), the keys of the `dict`
superclass (written by `super().__setitem__` after validation), the optional
owning console, and the `_last_error` slot. -/
structure Config : Type where
  d : List (String × Nat × RawValue)
  superKeys : List Nat
  console : Opt Nat
  lastError : Opt String

/-- External console collaborator: optional parent console, its own config id,
its `__dict__` (for template expansion) and a counter of `reset()` calls. -/
structure Console : Type where
  parent : Opt Nat
  config : Nat
  attrs : String → Opt String
  resetCount : Nat

/-- Whole-program state: heaps of `Option`, `Config` and console objects, the
process-wide registry `Option._instances` (config id → name → option id), and
the external path-expansion utility `Path(value, expand=True)`. -/
structure State : Type where
  options : List Option
  configs : List Config
  consoles : List Console
  registry : List (Nat × List (String × Nat))
  pathExpand : RawValue → String

/-- The `Option` produced by `Option(name)` with all defaults: every hook is
the default lambda, re-bound as a method by `__set_func`. -/
def defaultOption (n : String) : Option :=
  { name := n, description := none, required := false, choices := none,
    transform := ⟨FuncKind.method, true, fun v => v⟩,
    validate := ⟨FuncKind.method, true, ValidateFn.dflt⟩,
    callback := ⟨FuncKind.method, true, fun _ => none⟩,
    oldValue := RawValue.null, _reset := false, config := none }

/-- Placeholder object for out-of-range heap reads (never reachable in states
produced by the embedded operations; theorems carry bounds hypotheses). -/
def dummyOption : Option := defaultOption ""

def dummyConfig : Config :=
  { d := [], superKeys := [], console := none, lastError := none }

def dummyConsole : Console :=
  { parent := none, config := 0, attrs := fun _ => none, resetCount := 0 }

/-- Lookup in the `__d` association list. -/
def lookupD : List (String × Nat × RawValue) → String → Opt (Nat × RawValue)
  | [], _ => none
  | (n, p) :: rest, k => if n = k then some p else lookupD rest k

/-- Update/insert in the `__d` association list (Python dict assignment). -/
def setD : List (String × Nat × RawValue) → String → Nat × RawValue →
    List (String × Nat × RawValue)
  | [], k, p => [(k, p)]
  | (n, q) :: rest, k, p =>
    if n = k then (k, p) :: rest else (n, q) :: setD rest k p

/-- Lookup in a name → option-id association list. -/
def assocFind : List (String × Nat) → String → Opt Nat
  | [], _ => none
  | (n, i) :: rest, k => if n = k then some i else assocFind rest k

/-- Update/insert in a name → option-id association list. -/
def assocSet : List (String × Nat) → String → Nat → List (String × Nat)
  | [], k, i => [(k, i)]
  | (n, j) :: rest, k, i =>
    if n = k then (k, i) :: rest else (n, j) :: assocSet rest k i

/-- Lookup `Option._instances[id(config)].get(name)`. -/
def regGetName (r : List (Nat × List (String × Nat))) (cid : Nat) (n : String) :
    Opt Nat :=
  match r with
  | [] => none
  | (c, m) :: rest => if c = cid then assocFind m n else regGetName rest cid n

/-- Write `Option._instances[id(config)][name] = oid` (with the `setdefault`
of the per-config inner dict). -/
def regSet (r : List (Nat × List (String × Nat))) (cid : Nat) (n : String)
    (oid : Nat) : List (Nat × List (String × Nat)) :=
  match r with
  | [] => [(cid, [(n, oid)])]
  | (c, m) :: rest =>
    if c = cid then (c, assocSet m n oid) :: rest else (c, m) :: regSet rest cid n oid

/-- Replace the option object at heap id `i`. -/
def updOption (st : State) (i : Nat) (f : Option → Option) : State :=
  { st with options := st.options.set i (f (st.options.getD i dummyOption)) }

/-- Replace the config object at heap id `i`. -/
def updConfig (st : State) (i : Nat) (f : Config → Config) : State :=
  { st with configs := st.configs.set i (f (st.configs.getD i dummyConfig)) }

/-- Replace the console object at heap id `i`. -/
def updConsole (st : State) (i : Nat) (f : Console → Console) : State :=
  { st with consoles := st.consoles.set i (f (st.consoles.getD i dummyConsole)) }

/-- Embedding of `Option.__set_func`: `None` is replaced by the default lambda;
a plain function is accepted and re-bound (`func.__get__ ...`) into a method;
anything else (in particular an already-bound method) raises
`Exception("Bad <name> lambda")`. -/
def Option.setFunc {α : Type} (given : Opt (Func α)) (fname : String)
    (dflt : α) : Except Err (Func α) :=
  match given with
  | none => .ok ⟨FuncKind.method, true, dflt⟩
  | some f =>
    if f.kind = FuncKind.function then .ok ⟨FuncKind.method, f.isLambda, f.payload⟩
    else .error (.invalidHook fname)

/-- Embedding of `Option.__init__`: expand the `bool` choices sentinel,
install `transform`, derive the default choice validator when `validate` is
omitted but `choices` given, install `validate` and `callback`. -/
def Option.init (name : String) (description : Opt String) (required : Bool)
    (choices : ChoicesArg) (transform : Opt (Func (RawValue → RawValue)))
    (validate : Opt (Func ValidateFn))
    (callback : Opt (Func (RawValue → Opt String))) : Except Err Option := do
  let choicesV : Opt (List RawValue) :=
    match choices with
    | .noChoices => none
    | .boolType => some [RawValue.str "true", RawValue.str "false"]
    | .list cs => some cs
  let t ← Option.setFunc transform "transform" (fun v => v)
  let validate2 : Opt (Func ValidateFn) :=
    match validate, choicesV with
    | none, some _ => some ⟨FuncKind.function, true, ValidateFn.choiceCheck⟩
    | v, _ => v
  let vd ← Option.setFunc validate2 "validate" ValidateFn.dflt
  let cb ← Option.setFunc callback "callback" (fun _ => none)
  .ok { name := name, description := description, required := required,
        choices := choicesV, transform := t, validate := vd, callback := cb,
        oldValue := RawValue.null, _reset := false, config := none }

/-- Embedding of `Option.bind`: return the canonical option id for
`(config, name)` from the registry, registering `oid` (and linking it to the
config) when none exists, otherwise refreshing the existing option's link. -/
def Option.bindF (st : State) (oid : Nat) (cid : Nat) : State × Nat :=
  let n := (st.options.getD oid dummyOption).name
  match regGetName st.registry cid n with
  | none =>
    let st1 := updOption st oid (fun o => { o with config := some cid })
    ({ st1 with registry := regSet st1.registry cid n oid }, oid)
  | some k =>
    (updOption st k (fun o => { o with config := some cid }), k)

/-- Embedding of `Option.copy`: construct a fresh `Option` from the current
metadata, passing the (bound) hooks back into `__init__`. -/
def Option.copyF (o : Option) : Except Err Option :=
  Option.init o.name o.description o.required
    (match o.choices with
     | none => ChoicesArg.noChoices
     | some cs => ChoicesArg.list cs)
    (some o.transform) (some o.validate) (some o.callback)

/-- Embedding of `Config.__getitem__`: return the raw stored value from `__d`;
on a local miss delegate to `self.console.parent.config` when that chain
exists, else raise `KeyError`. -/
def Config.getItemF : Nat → State → Nat → String → Except Err RawValue
  | 0, _, _, _ => .error .recursionError
  | fuel + 1, st, cid, key =>
    let cfg := st.configs.getD cid dummyConfig
    match lookupD cfg.d key with
    | some p => .ok p.2
    | none =>
      match cfg.console with
      | none => .error (.keyNotFound key)
      | some co =>
        match (st.consoles.getD co dummyConsole).parent with
        | none => .error (.keyNotFound key)
        | some po =>
          Config.getItemF fuel st ((st.consoles.getD po dummyConsole).config) key

/-- Embedding of `Option.input`: the raw stored value via the bound config,
or `Exception("Unbound option ...")`. -/
def Option.inputF (fuel : Nat) (st : State) (oid : Nat) : Except Err RawValue :=
  let o := st.options.getD oid dummyOption
  match o.config with
  | some cid => Config.getItemF fuel st cid o.name
  | none => .error (.unboundOption o.name)

/-- The `self.config.console.__dict__` chain used by template expansion, when
it exists. -/
def consoleAttrsOf (st : State) (cfg : Opt Nat) : Opt (String → Opt String) :=
  match cfg with
  | none => none
  | some cid =>
    match (st.configs.getD cid dummyConfig).console with
    | none => none
    | some co => some (st.consoles.getD co dummyConsole).attrs

/-- Embedding of the `Option.value` property: fetch the raw input, apply the
required-ness check, template expansion, path resolution for names ending in
FOLDER/WORKSPACE, primitive coercion, and finally the user transform — the
latter only under the source's guard `isinstance(self.transform,
type(lambda: 0)) and self.transform.__name__ == (lambda: 0).__name__`. -/
def Option.valueF (fuel : Nat) (st : State) (oid : Nat) : Except Err RawValue :=
  let o := st.options.getD oid dummyOption
  match Option.inputF fuel st oid with
  | .error e => .error e
  | .ok v0 =>
    if o.required = true ∧ v0 = RawValue.null then
      .error (.requiredValueMissing o.name)
    else
      let v1 := templateExpand (consoleAttrsOf st o.config) v0
      let v2 :=
        if strEndsWith o.name "FOLDER" || strEndsWith o.name "WORKSPACE" then
          RawValue.str (st.pathExpand v1)
        else v1
      let v3 := coerce v2
      let v4 :=
        if o.transform.kind = FuncKind.function ∧ o.transform.isLambda = true then
          o.transform.payload v3
        else v3
      .ok v4

/-- Run `key.validate()`: the default lambda returns `self` (truthy); the
default choice validator and user validators examine the resolved value
`s.value`, whose exceptions propagate. -/
def Config.runValidate (fuel : Nat) (st : State) (oid : Nat) : Except Err Bool :=
  let o := st.options.getD oid dummyOption
  match o.validate.payload with
  | ValidateFn.dflt => .ok true
  | ValidateFn.choiceCheck =>
    match Option.valueF fuel st oid with
    | .error e => .error e
    | .ok rv =>
      .ok (((o.choices.getD []).map (fun c => pyLower (pyStr c))).contains
        (pyLower (pyStr rv)))
  | ValidateFn.user f =>
    match Option.valueF fuel st oid with
    | .error e => .error e
    | .ok rv => .ok (f rv)

/-- Keys accepted by `Config.__setitem__`: a plain string (wrapped into a
fresh `Option(key)`) or an existing `Option` object. -/
inductive KeyIn : Type
  | str (s : String)
  | opt (oid : Nat)

/-- The trace event a callback outcome produces. -/
def cbEvent : Opt String → Event
  | none => Event.callbackOk
  | some m => Event.callbackErr m

/-- Embedding of `Config.__setitem__`: normalise the key into a canonical
`Option` via `bind`, record `old_value` (resolving the current value when the
name is already present — its exceptions propagate), store the raw value in
`__d`, validate (failure raises `ValueError` after the store), mirror the
store into the `dict` superclass, run the callback (exceptions recorded in
`_last_error` and swallowed), and call `console.reset()` when the option is
reset-flagged.  Returns the new state, the raised error if any, and the
event trace. -/
def Config.setItemF (fuel : Nat) (st : State) (cid : Nat) (key : KeyIn)
    (v : RawValue) : State × Opt Err × List Event :=
  let alloc : Except Err (State × Nat) :=
    match key with
    | .opt oid => .ok (st, oid)
    | .str n =>
      match Option.init n none false ChoicesArg.noChoices none none none with
      | .ok o => .ok ({ st with options := st.options ++ [o] }, st.options.length)
      | .error e => .error e
  match alloc with
  | .error e => (st, some e, [])
  | .ok (st1, oid0) =>
    let p := Option.bindF st1 oid0 cid
    let st2 := p.1
    let k := p.2
    let kname := (st2.options.getD k dummyOption).name
    let oldRes : Except Err RawValue :=
      match lookupD (st2.configs.getD cid dummyConfig).d kname with
      | some _ => Option.valueF fuel st2 k
      | none => .ok RawValue.null
    match oldRes with
    | .error e => (st2, some e, [])
    | .ok ov =>
      let st3 := updOption st2 k (fun o => { o with oldValue := ov })
      let st4 := updConfig st3 cid (fun c => { c with d := setD c.d kname (k, v) })
      match Config.runValidate fuel st4 k with
      | .error e => (st4, some e, [Event.stored kname])
      | .ok false => (st4, some (Err.invalidValue kname), [Event.stored kname])
      | .ok true =>
        let st5 := updConfig st4 cid (fun c =>
          { c with superKeys :=
              if c.superKeys.contains k then c.superKeys else c.superKeys ++ [k] })
        let cbRes := (st5.options.getD k dummyOption).callback.payload v
        let st6 :=
          match cbRes with
          | none => st5
          | some m => updConfig st5 cid (fun c => { c with lastError := some m })
        if (st6.options.getD k dummyOption)._reset = true then
          match (st6.configs.getD cid dummyConfig).console with
          | some co =>
            (updConsole st6 co (fun c => { c with resetCount := c.resetCount + 1 }),
             none, [Event.stored kname, cbEvent cbRes, Event.resetCalled co])
          | none => (st6, some Err.attributeError, [Event.stored kname, cbEvent cbRes])
        else (st6, none, [Event.stored kname, cbEvent cbRes])

/-! Small list lemmas used to execute the heap updates symbolically. -/

theorem getD_set_self {α : Type} (l : List α) (i : Nat) (a d : α)
    (h : i < l.length) : (l.set i a).getD i d = a := by
  induction l generalizing i with
  | nil => simp at h
  | cons x xs ih =>
    cases i with
    | zero => rfl
    | succ j =>
      simp only [List.set, List.getD_cons_succ]
      exact ih j (by simpa using h)

theorem getD_set_ne {α : Type} (l : List α) (i j : Nat) (a d : α)
    (h : i ≠ j) : (l.set i a).getD j d = l.getD j d := by
  induction l generalizing i j with
  | nil => rfl
  | cons x xs ih =>
    cases i with
    | zero =>
      cases j with
      | zero => exact absurd rfl h
      | succ m => rfl
    | succ n =>
      cases j with
      | zero => rfl
      | succ m =>
        simp only [List.set, List.getD_cons_succ]
        exact ih n m (fun hnm => h (by rw [hnm]))

theorem getD_append_cons {α : Type} (l : List α) (a : α) (r : List α) (d : α) :
    (l ++ a :: r).getD l.length d = a := by
  induction l with
  | nil => rfl
  | cons x xs ih => simpa using ih

theorem set_append_cons {α : Type} (l : List α) (a b : α) (r : List α) :
    (l ++ a :: r).set l.length b = l ++ b :: r := by
  induction l with
  | nil => rfl
  | cons x xs ih => simp [ih]

theorem lookupD_setD_self (d : List (String × Nat × RawValue)) (n : String)
    (p : Nat × RawValue) : lookupD (setD d n p) n = some p := by
  induction d with
  | nil => simp [setD, lookupD]
  | cons q rest ih =>
    by_cases h : q.1 = n
    · simp [setD, lookupD, h]
    · simp [setD, lookupD, h, ih]

theorem lookupD_setD_ne (d : List (String × Nat × RawValue)) (n m : String)
    (p : Nat × RawValue) (h : n ≠ m) :
    lookupD (setD d n p) m = lookupD d m := by
  induction d with
  | nil => simp [setD, lookupD, h]
  | cons q rest ih =>
    by_cases hq : q.1 = n
    · simp [setD, lookupD, hq, h, Ne.symm h]
    · simp only [setD, hq, if_false, lookupD]
      by_cases hm : q.1 = m <;> simp [hm, ih]

/-! Claim C1 — what `Config.__getitem__` returns. -/

/-- Scenario for C1: one config owning the default option `x` with the raw
string `"42"` stored for it. -/
def optC1 : Option := { defaultOption "x" with config := some 0 }

def stC1 : State :=
  { options := [optC1],
    configs := [{ d := [("x", (0, RawValue.str "42"))], superKeys := [],
                  console := none, lastError := none }],
    consoles := [], registry := [(0, [("x", 0)])], pathExpand := fun _ => "" }

/-- C1, counterexample: the claim says a read through `Config.__getitem__`
returns the Option's pipeline-resolved value.  With `"42"` stored, the
pipeline resolves to the integer `42` (`Option.value`), but `__getitem__`
returns the raw string `"42"`, which differs. -/
theorem c1_counterexample :
    Config.getItemF 1 stC1 0 "x" = .ok (RawValue.str "42") ∧
    Option.valueF 1 stC1 0 = .ok (RawValue.int 42) ∧
    RawValue.str "42" ≠ RawValue.int 42 :=
  ⟨rfl, rfl, by decide⟩

/-- C1, amended: for every key with a locally stored value,
`Config.__getitem__` returns the raw stored value as-is; the 5-stage resolved
value is produced only by the `Option.value` property. -/
theorem c1_getitem_returns_raw (fuel : Nat) (st : State) (cid : Nat)
    (n : String) (oid : Nat) (v : RawValue)
    (hd : lookupD (st.configs.getD cid dummyConfig).d n = some (oid, v)) :
    Config.getItemF (fuel + 1) st cid n = .ok v := by
  simp only [Config.getItemF]
  rw [hd]

/-- Witness for `c1_getitem_returns_raw` at the C1 scenario. -/
theorem c1_getitem_returns_raw_witness :
    Config.getItemF 1 stC1 0 "x" = .ok (RawValue.str "42") :=
  c1_getitem_returns_raw 0 stC1 0 "x" 0 (RawValue.str "42") rfl

/-! Claim C6 — required options and recovery by assignment. -/

/-- Scenario for C6: a required option `x` whose stored raw value is `None`
(undefined in the sense of spec section 4.3 stage 1). -/
def optC6 : Option := { defaultOption "x" with required := true, config := some 0 }

def stC6 : State :=
  { options := [optC6],
    configs := [{ d := [("x", (0, RawValue.null))], superKeys := [],
                  console := none, lastError := none }],
    consoles := [], registry := [(0, [("x", 0)])], pathExpand := fun _ => "" }

/-- C6: resolving the required option with an undefined (None) value does
raise `RequiredValueMissingError`, but assigning a new value — here the falsy
`0` and `False` of the claim — does NOT clear the error: `__setitem__`
evaluates `key.old_value = key.value ...` before storing, which re-raises
`RequiredValueMissingError`, so the assignment itself fails, the store keeps
`None`, and subsequent resolution still fails. -/
theorem c6_required_assignment_cannot_recover :
    Option.valueF 1 stC6 0 = .error (Err.requiredValueMissing "x") ∧
    (Config.setItemF 1 stC6 0 (KeyIn.opt 0) (RawValue.int 0)).2.1
      = some (Err.requiredValueMissing "x") ∧
    (Config.setItemF 1 stC6 0 (KeyIn.opt 0) (RawValue.bool false)).2.1
      = some (Err.requiredValueMissing "x") ∧
    lookupD ((Config.setItemF 1 stC6 0 (KeyIn.opt 0)
        (RawValue.int 0)).1.configs.getD 0 dummyConfig).d "x"
      = some (0, RawValue.null) ∧
    Option.valueF 1 (Config.setItemF 1 stC6 0 (KeyIn.opt 0) (RawValue.int 0)).1 0
      = .error (Err.requiredValueMissing "x") :=
  ⟨rfl, rfl, rfl, rfl, rfl⟩

/-! Claim C9 — the user transform stage. -/

/-- A user transform: increment an integer value. -/
def incrFn : RawValue → RawValue
  | .int n => .int (n + 1)
  | w => w

/-- The option produced by `Option("x", transform=lambda ...)` —
`__set_func` has re-bound the accepted lambda into a bound method — linked to
config 0. -/
def optC9 : Option :=
  { name := "x", description := none, required := false, choices := none,
    transform := ⟨FuncKind.method, true, incrFn⟩,
    validate := ⟨FuncKind.method, true, ValidateFn.dflt⟩,
    callback := ⟨FuncKind.method, true, fun _ => none⟩,
    oldValue := RawValue.null, _reset := false, config := some 0 }

def stC9 : State :=
  { options := [optC9],
    configs := [{ d := [("x", (0, RawValue.int 3))], superKeys := [],
                  console := none, lastError := none }],
    consoles := [], registry := [(0, [("x", 0)])], pathExpand := fun _ => "" }

/-- C9: the claim says the user transform is applied as the final pipeline
stage.  In the code it never is: `__set_func` stores every hook as a bound
method, and the guard `isinstance(self.transform, type(lambda: 0))` in
`Option.value` is false for bound methods.  Construction accepts the
increment lambda, yet resolving the stored `3` yields `3`, not the
transform's `4`. -/
theorem c9_transform_never_applied :
    Option.init "x" none false ChoicesArg.noChoices
        (some ⟨FuncKind.function, true, incrFn⟩) none none
      = .ok { optC9 with config := none } ∧
    Option.valueF 1 stC9 0 = .ok (RawValue.int 3) ∧
    optC9.transform.payload (RawValue.int 3) = RawValue.int 4 :=
  ⟨rfl, rfl, rfl⟩

/-! Claim C10 — the copy contract. -/

/-- The option produced by `Option("x", "test option")` with all-default
hooks (stored as bound methods by `__set_func`). -/
def optC10 : Option :=
  { name := "x", description := some "test option", required := false,
    choices := none,
    transform := ⟨FuncKind.method, true, fun v => v⟩,
    validate := ⟨FuncKind.method, true, ValidateFn.dflt⟩,
    callback := ⟨FuncKind.method, true, fun _ => none⟩,
    oldValue := RawValue.null, _reset := false, config := none }

/-- C10: the claim says `copy()` succeeds for every option.  It never does:
`copy()` passes the stored hooks — bound methods after `__set_func` — back
into `Option.__init__`, whose `isinstance(func, type(lambda: 0))` test
rejects bound methods and raises `Exception("Bad transform lambda")`. -/
theorem c10_copy_always_raises :
    Option.init "x" (some "test option") false ChoicesArg.noChoices
        none none none = .ok optC10 ∧
    Option.copyF optC10 = .error (Err.invalidHook "transform") :=
  ⟨rfl, rfl⟩

/-! Claim C5 — callback failures are swallowed. -/

set_option maxHeartbeats 1000000 in
/-- C5: for an assignment whose callback raises (here: `f v = some m`), the
error is recorded in the scope's `_last_error`, no exception reaches the
caller, and the newly assigned raw value is stored. -/
theorem c5_callback_error_swallowed (fuel : Nat) (st : State) (cid oid : Nat)
    (o : Option) (v : RawValue) (m : String) (f : RawValue → Opt String)
    (hoid : oid < st.options.length) (hcid : cid < st.configs.length)
    (hgo : st.options.getD oid dummyOption = o)
    (hval : o.validate.payload = ValidateFn.dflt)
    (hcb : o.callback.payload = f)
    (hrs : o._reset = false)
    (hreg : regGetName st.registry cid o.name = some oid)
    (hd : lookupD (st.configs.getD cid dummyConfig).d o.name = none)
    (hm : f v = some m) :
    (Config.setItemF fuel st cid (KeyIn.opt oid) v).2.1 = none ∧
    (Config.setItemF fuel st cid (KeyIn.opt oid) v).2.2
      = [Event.stored o.name, Event.callbackErr m] ∧
    lookupD ((Config.setItemF fuel st cid (KeyIn.opt oid) v).1.configs.getD cid
        dummyConfig).d o.name = some (oid, v) ∧
    ((Config.setItemF fuel st cid (KeyIn.opt oid) v).1.configs.getD cid
        dummyConfig).lastError = some m := by
  have hb : Option.bindF st oid cid
      = (updOption st oid (fun x => { x with config := some cid }), oid) := by
    unfold Option.bindF
    rw [hgo]
    dsimp only
    rw [hreg]
  simp only [Config.setItemF, hb, updOption, updConfig, hgo, List.set_set]
  simp only [getD_set_self _ _ _ _ hoid, getD_set_self _ _ _ _ hcid]
  rw [hd]
  simp only [Config.runValidate, List.set_set]
  simp only [getD_set_self _ _ _ _ hoid, getD_set_self _ _ _ _ hcid, hval]
  simp only [hcb, hm]
  simp only [getD_set_self _ _ _ _ hoid, getD_set_self _ _ _ _ hcid, List.set_set]
  simp only [hrs, Bool.false_eq_true, if_false]
  simp only [getD_set_self _ _ _ _ hcid, lookupD_setD_self, cbEvent, true_and,
    and_true, and_self]

/-- Scenario for the C5 witness: a bound option `x` whose callback raises
`"boom"`, in a console-less config. -/
def optC5 : Option :=
  { defaultOption "x" with
      callback := ⟨FuncKind.method, true, fun _ => some "boom"⟩,
      config := some 0 }

def stC5 : State :=
  { options := [optC5],
    configs := [{ d := [], superKeys := [], console := none, lastError := none }],
    consoles := [], registry := [(0, [("x", 0)])], pathExpand := fun _ => "" }

/-- Witness for `c5_callback_error_swallowed` at the C5 scenario. -/
theorem c5_callback_error_swallowed_witness :
    (Config.setItemF 1 stC5 0 (KeyIn.opt 0) (RawValue.str "v")).2.1 = none ∧
    (Config.setItemF 1 stC5 0 (KeyIn.opt 0) (RawValue.str "v")).2.2
      = [Event.stored "x", Event.callbackErr "boom"] ∧
    lookupD ((Config.setItemF 1 stC5 0 (KeyIn.opt 0)
        (RawValue.str "v")).1.configs.getD 0 dummyConfig).d "x"
      = some (0, RawValue.str "v") ∧
    ((Config.setItemF 1 stC5 0 (KeyIn.opt 0)
        (RawValue.str "v")).1.configs.getD 0 dummyConfig).lastError = some "boom" :=
  c5_callback_error_swallowed 1 stC5 0 0 optC5 (RawValue.str "v") "boom"
    (fun _ => some "boom") (by decide) (by decide) rfl rfl rfl rfl rfl rfl rfl

/-- Number of `resetCalled` events in a trace. -/
def countResets : List Event → Nat
  | [] => 0
  | Event.resetCalled _ :: rest => countResets rest + 1
  | _ :: rest => countResets rest

set_option maxHeartbeats 1000000 in
/-- C7: assigning a reset-flagged option through `Config.__setitem__` (with a
passing validator, i.e. an assignment that reaches the callback stage) calls
the owning console's `reset()` exactly once, after the callback event — also
when the callback raised, since that error is swallowed first. -/
theorem c7_reset_once_after_callback (fuel : Nat) (st : State)
    (cid oid co : Nat) (o : Option) (v : RawValue)
    (hoid : oid < st.options.length) (hcid : cid < st.configs.length)
    (hco : co < st.consoles.length)
    (hgo : st.options.getD oid dummyOption = o)
    (hval : o.validate.payload = ValidateFn.dflt)
    (hrs : o._reset = true)
    (hreg : regGetName st.registry cid o.name = some oid)
    (hd : lookupD (st.configs.getD cid dummyConfig).d o.name = none)
    (hcon : (st.configs.getD cid dummyConfig).console = some co) :
    (Config.setItemF fuel st cid (KeyIn.opt oid) v).2.2
      = [Event.stored o.name, cbEvent (o.callback.payload v),
         Event.resetCalled co] ∧
    countResets (Config.setItemF fuel st cid (KeyIn.opt oid) v).2.2 = 1 ∧
    (Config.setItemF fuel st cid (KeyIn.opt oid) v).2.1 = none ∧
    ((Config.setItemF fuel st cid (KeyIn.opt oid) v).1.consoles.getD co
        dummyConsole).resetCount
      = (st.consoles.getD co dummyConsole).resetCount + 1 := by
  have hb : Option.bindF st oid cid
      = (updOption st oid (fun x => { x with config := some cid }), oid) := by
    unfold Option.bindF
    rw [hgo]
    dsimp only
    rw [hreg]
  cases hcbv : o.callback.payload v with
  | none =>
    simp only [Config.setItemF, hb, updOption, updConfig, updConsole, hgo,
      List.set_set]
    simp only [getD_set_self _ _ _ _ hoid, getD_set_self _ _ _ _ hcid]
    rw [hd]
    simp only [Config.runValidate, List.set_set]
    simp only [getD_set_self _ _ _ _ hoid, getD_set_self _ _ _ _ hcid, hval]
    simp only [hcbv]
    simp only [getD_set_self _ _ _ _ hoid, getD_set_self _ _ _ _ hcid,
      List.set_set, hrs, if_true]
    rw [hcon]
    simp only [getD_set_self _ _ _ _ hco, cbEvent, countResets, true_and,
      and_true, and_self]
  | some m =>
    simp only [Config.setItemF, hb, updOption, updConfig, updConsole, hgo,
      List.set_set]
    simp only [getD_set_self _ _ _ _ hoid, getD_set_self _ _ _ _ hcid]
    rw [hd]
    simp only [Config.runValidate, List.set_set]
    simp only [getD_set_self _ _ _ _ hoid, getD_set_self _ _ _ _ hcid, hval]
    simp only [hcbv]
    simp only [getD_set_self _ _ _ _ hoid, getD_set_self _ _ _ _ hcid,
      List.set_set, hrs, if_true]
    rw [hcon]
    simp only [getD_set_self _ _ _ _ hco, cbEvent, countResets, true_and,
      and_true, and_self]

/-- Scenario for the C7 witness: a reset-flagged option whose callback raises,
owned by a config linked to console 0. -/
def optC7 : Option :=
  { defaultOption "x" with
      _reset := true,
      callback := ⟨FuncKind.method, true, fun _ => some "cb failed"⟩,
      config := some 0 }

def stC7 : State :=
  { options := [optC7],
    configs := [{ d := [], superKeys := [], console := some 0, lastError := none }],
    consoles := [{ parent := none, config := 0, attrs := fun _ => none,
                   resetCount := 0 }],
    registry := [(0, [("x", 0)])], pathExpand := fun _ => "" }

/-- Witness for `c7_reset_once_after_callback` at the C7 scenario. -/
theorem c7_reset_once_after_callback_witness :
    (Config.setItemF 1 stC7 0 (KeyIn.opt 0) (RawValue.int 5)).2.2
      = [Event.stored "x", Event.callbackErr "cb failed", Event.resetCalled 0] ∧
    countResets (Config.setItemF 1 stC7 0 (KeyIn.opt 0) (RawValue.int 5)).2.2 = 1 ∧
    (Config.setItemF 1 stC7 0 (KeyIn.opt 0) (RawValue.int 5)).2.1 = none ∧
    ((Config.setItemF 1 stC7 0 (KeyIn.opt 0)
        (RawValue.int 5)).1.consoles.getD 0 dummyConsole).resetCount
      = (stC7.consoles.getD 0 dummyConsole).resetCount + 1 :=
  c7_reset_once_after_callback 1 stC7 0 0 0 optC7 (RawValue.int 5)
    (by decide) (by decide) (by decide) rfl rfl rfl rfl rfl rfl

theorem method_ne_function_eq_false :
    (FuncKind.method = FuncKind.function) = False := by simp

set_option maxHeartbeats 1000000 in
/-- C4: an assignment whose validator returns false — here the default
choice-membership validator of an option with `choices`, rejecting the
resolved form of `v` — raises `InvalidValueError`, and the store already
holds the new raw value when it does (fail-after-mutate); neither the
callback nor the reset cascade runs. -/
theorem c4_invalid_value_fail_after_mutate (fuel : Nat) (st : State)
    (cid oid : Nat) (o : Option) (v : RawValue) (cs : List RawValue)
    (hoid : oid < st.options.length) (hcid : cid < st.configs.length)
    (hgo : st.options.getD oid dummyOption = o)
    (hreq : o.required = false)
    (hval : o.validate.payload = ValidateFn.choiceCheck)
    (hch : o.choices = some cs)
    (htrk : o.transform.kind = FuncKind.method)
    (hreg : regGetName st.registry cid o.name = some oid)
    (hd : lookupD (st.configs.getD cid dummyConfig).d o.name = none)
    (hnf : strEndsWith o.name "FOLDER" = false)
    (hnw : strEndsWith o.name "WORKSPACE" = false)
    (htmp : templateExpand (consoleAttrsOf st (some cid)) v = v)
    (hbad : ((cs.map fun c => pyLower (pyStr c)).contains
        (pyLower (pyStr (coerce v)))) = false) :
    (Config.setItemF (fuel + 1) st cid (KeyIn.opt oid) v).2.1
      = some (Err.invalidValue o.name) ∧
    lookupD ((Config.setItemF (fuel + 1) st cid (KeyIn.opt oid)
        v).1.configs.getD cid dummyConfig).d o.name = some (oid, v) ∧
    (Config.setItemF (fuel + 1) st cid (KeyIn.opt oid) v).2.2
      = [Event.stored o.name] := by
  have hb : Option.bindF st oid cid
      = (updOption st oid (fun x => { x with config := some cid }), oid) := by
    unfold Option.bindF
    rw [hgo]
    dsimp only
    rw [hreg]
  simp only [consoleAttrsOf] at htmp
  simp only [Config.setItemF, hb, updOption, updConfig, hgo, List.set_set]
  simp only [getD_set_self _ _ _ _ hoid, getD_set_self _ _ _ _ hcid]
  rw [hd]
  simp only [Config.runValidate, List.set_set]
  simp only [getD_set_self _ _ _ _ hoid, getD_set_self _ _ _ _ hcid, hval]
  simp only [Option.valueF, Option.inputF, Config.getItemF]
  simp only [getD_set_self _ _ _ _ hoid, getD_set_self _ _ _ _ hcid,
    lookupD_setD_self]
  simp only [consoleAttrsOf, getD_set_self _ _ _ _ hcid]
  rw [htmp]
  simp only [hreq, hnf, hnw, htrk, hch, Bool.false_eq_true, false_and, if_false,
    Bool.or_self, method_ne_function_eq_false, Option.getD_some, hbad]
  simp only [getD_set_self _ _ _ _ hcid, lookupD_setD_self, true_and, and_true,
    and_self]

/-- Scenario for the C4 witness: an option with `choices=["a","b"]` (default
choice validator) bound to config 0; assigning `"c"` fails validation. -/
def optC4 : Option :=
  { defaultOption "x" with
      choices := some [RawValue.str "a", RawValue.str "b"],
      validate := ⟨FuncKind.method, true, ValidateFn.choiceCheck⟩,
      config := some 0 }

def stC4 : State :=
  { options := [optC4],
    configs := [{ d := [], superKeys := [], console := none, lastError := none }],
    consoles := [], registry := [(0, [("x", 0)])], pathExpand := fun _ => "" }

/-- Witness for `c4_invalid_value_fail_after_mutate` at the C4 scenario. -/
theorem c4_invalid_value_fail_after_mutate_witness :
    (Config.setItemF 1 stC4 0 (KeyIn.opt 0) (RawValue.str "c")).2.1
      = some (Err.invalidValue "x") ∧
    lookupD ((Config.setItemF 1 stC4 0 (KeyIn.opt 0)
        (RawValue.str "c")).1.configs.getD 0 dummyConfig).d "x"
      = some (0, RawValue.str "c") ∧
    (Config.setItemF 1 stC4 0 (KeyIn.opt 0) (RawValue.str "c")).2.2
      = [Event.stored "x"] :=
  c4_invalid_value_fail_after_mutate 0 stC4 0 0 optC4 (RawValue.str "c")
    [RawValue.str "a", RawValue.str "b"] (by decide) (by decide) rfl rfl rfl
    rfl rfl rfl rfl rfl rfl rfl rfl

theorem assocFind_assocSet_self (m : List (String × Nat)) (n : String) (i : Nat) :
    assocFind (assocSet m n i) n = some i := by
  induction m with
  | nil => simp only [assocSet, assocFind, if_pos rfl, if_true]
  | cons q rest ih =>
    by_cases h : q.1 = n
    · simp [assocSet, assocFind, h]
    · simp [assocSet, assocFind, h, ih]

theorem regGetName_regSet_self (r : List (Nat × List (String × Nat)))
    (cid : Nat) (n : String) (oid : Nat) :
    regGetName (regSet r cid n oid) cid n = some oid := by
  induction r with
  | nil => simp only [regSet, regGetName, assocFind, if_pos rfl, if_true,
      assocFind_assocSet_self]
  | cons p rest ih =>
    by_cases h : p.1 = cid
    · simp [regSet, regGetName, h, assocFind_assocSet_self]
    · simp [regSet, regGetName, h, ih]

theorem init_default_eq (n : String) :
    Option.init n none false ChoicesArg.noChoices none none none
      = .ok (defaultOption n) := rfl

/-- The option a fresh string-key assignment leaves bound to config `cid`. -/
def boundDefault (n : String) (cid : Nat) : Option :=
  { defaultOption n with config := some cid }

theorem bd_name (n : String) (cid : Nat) : (boundDefault n cid).name = n := rfl

theorem bd_validate_payload (n : String) (cid : Nat) :
    (boundDefault n cid).validate.payload = ValidateFn.dflt := rfl

theorem bd_callback_payload (n : String) (cid : Nat) :
    (boundDefault n cid).callback.payload = fun _ => none := rfl

theorem bd_reset (n : String) (cid : Nat) :
    (boundDefault n cid)._reset = false := rfl

theorem bd_oldValue_update (n : String) (cid : Nat) :
    { boundDefault n cid with oldValue := RawValue.null } = boundDefault n cid := rfl

set_option maxHeartbeats 1600000 in
/-- Execution of `Config.__setitem__` with a plain string key naming a fresh
option (no registry binding, no stored entry): a fresh default `Option` is
allocated and registered, the value stored, validation and the no-op callback
succeed, and only the target config changes. -/
theorem setItemF_str_fresh (fuel : Nat) (st : State) (cid : Nat) (n : String)
    (v : RawValue)
    (hcid : cid < st.configs.length)
    (hreg : regGetName st.registry cid n = none)
    (hd : lookupD (st.configs.getD cid dummyConfig).d n = none) :
    (Config.setItemF (fuel + 1) st cid (KeyIn.str n) v).2.1 = none ∧
    (Config.setItemF (fuel + 1) st cid (KeyIn.str n) v).2.2
      = [Event.stored n, Event.callbackOk] ∧
    (Config.setItemF (fuel + 1) st cid (KeyIn.str n) v).1.options
      = st.options ++ [boundDefault n cid] ∧
    (Config.setItemF (fuel + 1) st cid (KeyIn.str n) v).1.configs.length
      = st.configs.length ∧
    ((Config.setItemF (fuel + 1) st cid (KeyIn.str n)
        v).1.configs.getD cid dummyConfig).d
      = setD (st.configs.getD cid dummyConfig).d n (st.options.length, v) ∧
    ((Config.setItemF (fuel + 1) st cid (KeyIn.str n)
        v).1.configs.getD cid dummyConfig).console
      = (st.configs.getD cid dummyConfig).console ∧
    (Config.setItemF (fuel + 1) st cid (KeyIn.str n) v).1.registry
      = regSet st.registry cid n st.options.length ∧
    (Config.setItemF (fuel + 1) st cid (KeyIn.str n) v).1.consoles
      = st.consoles ∧
    (∀ j, j ≠ cid →
      (Config.setItemF (fuel + 1) st cid (KeyIn.str n) v).1.configs.getD j
          dummyConfig
        = st.configs.getD j dummyConfig) := by
  have hb1 : Option.bindF { st with options := st.options ++ [defaultOption n] }
        st.options.length cid
      = ({ st with
            options := st.options ++ [boundDefault n cid],
            registry := regSet st.registry cid n st.options.length },
         st.options.length) := by
    unfold Option.bindF updOption boundDefault
    dsimp only [defaultOption]
    rw [getD_append_cons]
    dsimp only
    rw [hreg]
    dsimp only
    rw [set_append_cons]
  simp only [Config.setItemF, init_default_eq, hb1, updOption, updConfig]
  simp only [getD_append_cons, set_append_cons, bd_name]
  rw [hd]
  simp only [bd_oldValue_update, Config.runValidate]
  simp only [getD_append_cons, set_append_cons, bd_oldValue_update,
    bd_validate_payload, bd_callback_payload, bd_reset, cbEvent]
  simp only [getD_set_self _ _ _ _ hcid, List.set_set, Bool.false_eq_true,
    if_false]
  and_intros
  all_goals
    first
    | trivial
    | (intro j hj
       exact getD_set_ne _ _ _ _ _ (fun h => hj h.symm))
    | simp [getD_set_self _ _ _ _ hcid]

theorem getD_append_left {α : Type} (l r : List α) (i : Nat) (d : α)
    (h : i < l.length) : (l ++ r).getD i d = l.getD i d := by
  induction l generalizing i with
  | nil => simp at h
  | cons x xs ih =>
    cases i with
    | zero => rfl
    | succ k =>
      simp only [List.cons_append, List.getD_cons_succ]
      exact ih k (by simpa using h)

theorem set_append_left {α : Type} (l r : List α) (i : Nat) (a : α)
    (h : i < l.length) : (l ++ r).set i a = l.set i a ++ r := by
  induction l generalizing i with
  | nil => simp at h
  | cons x xs ih =>
    cases i with
    | zero => rfl
    | succ k =>
      simp only [List.cons_append, List.set]
      exact congrArg (fun t => x :: t) (ih k (by simpa using h))

set_option maxHeartbeats 1600000 in
/-- Execution of `Config.__setitem__` with a string key whose name is already
registered for the scope: the freshly wrapped `Option` is discarded and the
canonical instance `oid` is rebound and used for the store. -/
theorem setItemF_str_hit (fuel : Nat) (st : State) (cid oid j : Nat)
    (o : Option) (n : String) (v w : RawValue)
    (hoid : oid < st.options.length) (hcid : cid < st.configs.length)
    (hgo : st.options.getD oid dummyOption = o)
    (hname : o.name = n)
    (hreq : o.required = false)
    (hval : o.validate.payload = ValidateFn.dflt)
    (hcb : o.callback.payload v = none)
    (hrs : o._reset = false)
    (hreg : regGetName st.registry cid n = some oid)
    (hd : lookupD (st.configs.getD cid dummyConfig).d n = some (j, w)) :
    (Config.setItemF (fuel + 1) st cid (KeyIn.str n) v).2.1 = none ∧
    (Config.setItemF (fuel + 1) st cid (KeyIn.str n) v).2.2
      = [Event.stored n, Event.callbackOk] ∧
    lookupD (((Config.setItemF (fuel + 1) st cid (KeyIn.str n)
        v).1.configs.getD cid dummyConfig)).d n = some (oid, v) ∧
    (Config.setItemF (fuel + 1) st cid (KeyIn.str n) v).1.registry
      = st.registry ∧
    (∀ j2, j2 ≠ cid →
      (Config.setItemF (fuel + 1) st cid (KeyIn.str n) v).1.configs.getD j2
          dummyConfig
        = st.configs.getD j2 dummyConfig) := by
  have hb1 : Option.bindF { st with options := st.options ++ [defaultOption n] }
        st.options.length cid
      = ({ st with
            options := st.options.set oid { o with config := some cid }
              ++ [defaultOption n] },
         oid) := by
    unfold Option.bindF updOption
    dsimp only [defaultOption]
    rw [getD_append_cons]
    dsimp only
    rw [hreg]
    dsimp only
    rw [getD_append_left _ _ _ _ hoid, hgo, set_append_left _ _ _ _ hoid]
  simp only [Config.setItemF, init_default_eq, hb1, updOption, updConfig]
  simp only [getD_append_left, getD_set_self, set_append_left, List.length_set,
    hoid, List.set_set]
  rw [hname, hd]
  simp only [Option.valueF, Option.inputF, Config.getItemF]
  simp only [getD_append_left, getD_set_self, set_append_left, List.length_set,
    hoid, List.set_set]
  rw [hd]
  simp only [hreq, Bool.false_eq_true, false_and, if_false]
  simp only [Config.runValidate]
  simp only [getD_append_left, getD_set_self, set_append_left, List.length_set,
    hoid, List.set_set]
  simp only [hval, hcb, cbEvent]
  simp only [getD_append_left, getD_set_self, set_append_left, List.length_set,
    hoid, List.set_set, hrs, Bool.false_eq_true, if_false]
  and_intros
  all_goals
    first
    | trivial
    | (intro j2 hj2
       exact getD_set_ne _ _ _ _ _ (fun h => hj2 h.symm))
    | simp only [getD_set_self, List.length_set, hcid, lookupD_setD_self]

set_option maxHeartbeats 1600000 in
/-- C2: assigning the same string key twice to the same scope constructs two
independent `Option` objects, but both assignments bind to one canonical
instance — the one allocated by the first assignment (heap id
`st.options.length`): after either call the store's entry for `n` carries
that id, and the registry maps `(scope, n)` to it. -/
theorem c2_canonical_binding (fuel : Nat) (st : State) (cid : Nat)
    (n : String) (v1 v2 : RawValue)
    (hcid : cid < st.configs.length)
    (hreg : regGetName st.registry cid n = none)
    (hd : lookupD (st.configs.getD cid dummyConfig).d n = none) :
    lookupD ((Config.setItemF (fuel + 1) st cid (KeyIn.str n)
        v1).1.configs.getD cid dummyConfig).d n
      = some (st.options.length, v1) ∧
    lookupD ((Config.setItemF (fuel + 1)
        (Config.setItemF (fuel + 1) st cid (KeyIn.str n) v1).1 cid
        (KeyIn.str n) v2).1.configs.getD cid dummyConfig).d n
      = some (st.options.length, v2) ∧
    regGetName (Config.setItemF (fuel + 1)
        (Config.setItemF (fuel + 1) st cid (KeyIn.str n) v1).1 cid
        (KeyIn.str n) v2).1.registry cid n
      = some st.options.length := by
  obtain ⟨h1, h2, h3, h4, h5, h6, h7, h8, h9⟩ :=
    setItemF_str_fresh fuel st cid n v1 hcid hreg hd
  set r1 := (Config.setItemF (fuel + 1) st cid (KeyIn.str n) v1).1 with hr1
  have hoid1 : st.options.length < r1.options.length := by
    rw [h3]
    simp
  have hcid1 : cid < r1.configs.length := by
    rw [h4]
    exact hcid
  have hgo1 : r1.options.getD st.options.length dummyOption
      = boundDefault n cid := by
    rw [h3]
    exact getD_append_cons _ _ _ _
  have hreg1 : regGetName r1.registry cid n = some st.options.length := by
    rw [h7]
    exact regGetName_regSet_self _ _ _ _
  have hd1 : lookupD (r1.configs.getD cid dummyConfig).d n
      = some (st.options.length, v1) := by
    rw [h5]
    exact lookupD_setD_self _ _ _
  obtain ⟨g1, g2, g3, g4, g5⟩ :=
    setItemF_str_hit fuel r1 cid st.options.length st.options.length
      (boundDefault n cid) n v2 v1 hoid1 hcid1 hgo1 (bd_name n cid) rfl
      (bd_validate_payload n cid) rfl (bd_reset n cid) hreg1 hd1
  refine ⟨hd1, g3, ?_⟩
  rw [g4, h7]
  exact regGetName_regSet_self _ _ _ _

/-- Scenario for the C2 witness: an empty scope. -/
def stC2 : State :=
  { options := [],
    configs := [{ d := [], superKeys := [], console := none, lastError := none }],
    consoles := [], registry := [], pathExpand := fun _ => "" }

/-- Witness for `c2_canonical_binding` at the C2 scenario. -/
theorem c2_canonical_binding_witness :
    lookupD ((Config.setItemF 1 stC2 0 (KeyIn.str "k")
        (RawValue.str "a")).1.configs.getD 0 dummyConfig).d "k"
      = some (0, RawValue.str "a") ∧
    lookupD ((Config.setItemF 1
        (Config.setItemF 1 stC2 0 (KeyIn.str "k") (RawValue.str "a")).1 0
        (KeyIn.str "k") (RawValue.int 1)).1.configs.getD 0 dummyConfig).d "k"
      = some (0, RawValue.int 1) ∧
    regGetName (Config.setItemF 1
        (Config.setItemF 1 stC2 0 (KeyIn.str "k") (RawValue.str "a")).1 0
        (KeyIn.str "k") (RawValue.int 1)).1.registry 0 "k"
      = some 0 :=
  c2_canonical_binding 0 stC2 0 "k" (RawValue.str "a") (RawValue.int 1)
    (by decide) rfl rfl

set_option maxHeartbeats 1000000 in
/-- C3: a key absent from a child scope delegates the read to the owning
console's parent scope (the read literally recurses into the parent's
store, so the chain is followed transitively), resolving to the parent's
stored value; with no console or no parent the read fails with
`KeyNotFoundError`; and a subsequent local assignment of the key shadows the
parent — the child then reads its own value while the parent's config object
is unchanged. -/
theorem c3_parent_delegation_and_shadowing (fuel : Nat) (st : State)
    (cc co po pc cfg0 : Nat) (k : String) (i : Nat) (v v2 : RawValue)
    (hcc : cc < st.configs.length)
    (hlocal : lookupD (st.configs.getD cc dummyConfig).d k = none)
    (hcon : (st.configs.getD cc dummyConfig).console = some co)
    (hpar : (st.consoles.getD co dummyConsole).parent = some po)
    (hpc : (st.consoles.getD po dummyConsole).config = pc)
    (hpd : lookupD (st.configs.getD pc dummyConfig).d k = some (i, v))
    (hne : pc ≠ cc)
    (hreg : regGetName st.registry cc k = none)
    (h0local : lookupD (st.configs.getD cfg0 dummyConfig).d k = none)
    (h0con : (st.configs.getD cfg0 dummyConfig).console = none) :
    Config.getItemF (fuel + 2) st cc k = Config.getItemF (fuel + 1) st pc k ∧
    Config.getItemF (fuel + 2) st cc k = .ok v ∧
    Config.getItemF (fuel + 1) st cfg0 k = .error (Err.keyNotFound k) ∧
    Config.getItemF 1 (Config.setItemF (fuel + 1) st cc (KeyIn.str k)
        v2).1 cc k = .ok v2 ∧
    (Config.setItemF (fuel + 1) st cc (KeyIn.str k) v2).1.configs.getD pc
        dummyConfig
      = st.configs.getD pc dummyConfig := by
  obtain ⟨h1, h2, h3, h4, h5, h6, h7, h8, h9⟩ :=
    setItemF_str_fresh fuel st cc k v2 hcc hreg hlocal
  have hdel : Config.getItemF (fuel + 2) st cc k
      = Config.getItemF (fuel + 1) st pc k := by
    conv_lhs => rw [Config.getItemF]
    rw [hlocal]
    dsimp only
    rw [hcon]
    dsimp only
    rw [hpar]
    dsimp only
    rw [hpc]
  refine ⟨hdel, ?_, ?_, ?_, h9 pc hne⟩
  · rw [hdel]
    conv_lhs => rw [Config.getItemF]
    rw [hpd]
  · conv_lhs => rw [Config.getItemF]
    rw [h0local]
    dsimp only
    rw [h0con]
  · conv_lhs => rw [Config.getItemF]
    rw [h5, lookupD_setD_self]

/-- Scenario for the C3 witness: console 0 (config 0) is a child of console 1
(config 1); the parent scope stores `k`; config 2 has no console. -/
def stC3 : State :=
  { options := [{ defaultOption "k" with config := some 1 }],
    configs := [{ d := [], superKeys := [], console := some 0, lastError := none },
                { d := [("k", (0, RawValue.str "pv"))], superKeys := [],
                  console := some 1, lastError := none },
                { d := [], superKeys := [], console := none, lastError := none }],
    consoles := [{ parent := some 1, config := 0, attrs := fun _ => none,
                   resetCount := 0 },
                 { parent := none, config := 1, attrs := fun _ => none,
                   resetCount := 0 }],
    registry := [(1, [("k", 0)])], pathExpand := fun _ => "" }

/-- Witness for `c3_parent_delegation_and_shadowing` at the C3 scenario. -/
theorem c3_parent_delegation_and_shadowing_witness :
    Config.getItemF 2 stC3 0 "k" = Config.getItemF 1 stC3 1 "k" ∧
    Config.getItemF 2 stC3 0 "k" = .ok (RawValue.str "pv") ∧
    Config.getItemF 1 stC3 2 "k" = .error (Err.keyNotFound "k") ∧
    Config.getItemF 1 (Config.setItemF 1 stC3 0 (KeyIn.str "k")
        (RawValue.str "cv")).1 0 "k" = .ok (RawValue.str "cv") ∧
    (Config.setItemF 1 stC3 0 (KeyIn.str "k")
        (RawValue.str "cv")).1.configs.getD 1 dummyConfig
      = stC3.configs.getD 1 dummyConfig :=
  c3_parent_delegation_and_shadowing 0 stC3 0 0 1 1 2 "k" 0
    (RawValue.str "pv") (RawValue.str "cv") (by decide) rfl rfl rfl rfl rfl
    (by decide) rfl rfl rfl

set_option maxHeartbeats 1000000 in
/-- C8: with the default transform (stored as a bound method by
`__set_func`), a name outside the FOLDER/WORKSPACE path rule and a value the
template stage leaves unchanged, resolution returns exactly the primitive
coercion of the stored raw value — and that coercion agrees with the spec's
description `coerceSpec` (digit strings to integers, true/false strings to
booleans, non-strings and other strings unchanged). -/
theorem c8_resolution_is_coercion (fuel : Nat) (st : State) (cid oid : Nat)
    (o : Option) (v : RawValue)
    (hgo : st.options.getD oid dummyOption = o)
    (hcfg : o.config = some cid)
    (hreq : o.required = false)
    (htr : o.transform = ⟨FuncKind.method, true, fun w => w⟩)
    (hnf : strEndsWith o.name "FOLDER" = false)
    (hnw : strEndsWith o.name "WORKSPACE" = false)
    (hd : lookupD (st.configs.getD cid dummyConfig).d o.name = some (oid, v))
    (htmp : templateExpand (consoleAttrsOf st (some cid)) v = v) :
    Option.valueF (fuel + 1) st oid = .ok (coerce v) ∧
    coerce = coerceSpec := by
  refine ⟨?_, coerce_eq_coerceSpec⟩
  simp only [Option.valueF, Option.inputF, hgo, hcfg, Config.getItemF]
  rw [hd]
  simp only [hreq, Bool.false_eq_true, false_and, if_false, hnf, hnw,
    Bool.or_self, htr, method_ne_function_eq_false]
  rw [htmp]

/-- Scenario for the C8 witness: the default option `x` with the digit string
`"42"` stored. -/
def optC8 : Option := { defaultOption "x" with config := some 0 }

def stC8 : State :=
  { options := [optC8],
    configs := [{ d := [("x", (0, RawValue.str "42"))], superKeys := [],
                  console := none, lastError := none }],
    consoles := [], registry := [(0, [("x", 0)])], pathExpand := fun _ => "" }

/-- Witness for `c8_resolution_is_coercion` at the C8 scenario: the stored
digit string `"42"` resolves to the integer `42`. -/
theorem c8_resolution_is_coercion_witness :
    Option.valueF 1 stC8 0 = .ok (RawValue.int 42) ∧ coerce = coerceSpec :=
  c8_resolution_is_coercion 0 stC8 0 0 optC8 (RawValue.str "42") rfl rfl rfl
    rfl rfl rfl rfl rfl

end Sploitkit
